import Mathlib

/-!
Verification of the article classification and digest-assembly pipeline of
`daily-news-bot` (`src/main.py`), as a shallow embedding in Lean 4.

An article record is embedded as a structure of optional string fields
(NewsAPI may return `null` for any of them).  Timestamps are parsed by a
faithful model of `datetime.strptime(p, "%Y-%m-%dT%H:%M:%SZ")` composed with
the `datetime` constructor's range validation, converted to a count of
seconds on the proleptic Gregorian timeline; "now" is an integer number of
seconds on the same timeline.  The network fetch is an oracle parameter
`fetch : String → Except String (List Article)`; an `Except.error` result
models any exception raised inside the `try` block of `get_news`.
-/

namespace NewsBot

/-- An input article: every field may be absent (`null` in the JSON). -/
structure Article where
  title : Option String
  description : Option String
  publishedAt : Option String
  url : Option String
deriving DecidableEq, Repr

/-- One selected output tuple `(title, publishedAt, url, is_moving)` as built
by `get_news`. -/
structure Entry where
  title : Option String
  publishedAt : Option String
  url : Option String
  isMoving : Bool
deriving DecidableEq, Repr

/-- `startsWithChars p s` holds when `p` is an initial segment of `s`. -/
def startsWithChars : List Char → List Char → Bool
  | [], _ => true
  | _ :: _, [] => false
  | p :: ps, c :: cs => p == c && startsWithChars ps cs

/-- Substring search on character lists, the semantics of Python `pat in s`
(the empty pattern occurs in every string). -/
def hasSub (pat : List Char) : List Char → Bool
  | [] => startsWithChars pat []
  | c :: cs => startsWithChars pat (c :: cs) || hasSub pat cs

/-- Python `term in text` on strings. -/
def occursIn (term text : String) : Bool :=
  hasSub term.toList text.toList

/-- Lower-casing of a string, character by character (the source data is
ASCII, on which this agrees with Python `str.lower()`). -/
def lowerStr (s : String) : String :=
  String.mk (s.toList.map Char.toLower)

/-- Python `(x or "").lower()` applied to an optional field. -/
def lowerOpt (o : Option String) : String :=
  lowerStr (o.getD "")

/-- Numeric value of a decimal digit character. -/
def digitVal (c : Char) : Nat := c.toNat - 48

/-- Greedily read one or two decimal digits (the behaviour of `strptime`'s
numeric directives when the following character in the format is a literal).
-/
def takeDigits2 : List Char → Option (Nat × List Char)
  | [] => none
  | [c] => if c.isDigit then some (digitVal c, []) else none
  | c1 :: c2 :: rest =>
    if c1.isDigit then
      if c2.isDigit then some (digitVal c1 * 10 + digitVal c2, rest)
      else some (digitVal c1, c2 :: rest)
    else none

/-- Read exactly four decimal digits (`strptime`'s `%Y`). -/
def takeDigits4 : List Char → Option (Nat × List Char)
  | a :: b :: c :: d :: rest =>
    if a.isDigit && b.isDigit && c.isDigit && d.isDigit then
      some (((digitVal a * 10 + digitVal b) * 10 + digitVal c) * 10 + digitVal d, rest)
    else none
  | _ => none

/-- Consume one expected literal character. -/
def expectChar (c : Char) : List Char → Option (List Char)
  | [] => none
  | x :: rest => if x == c then some rest else none

/-- Gregorian leap-year rule, as used by Python's `datetime`. -/
def isLeap (y : Nat) : Bool :=
  (y % 4 == 0 && y % 100 != 0) || y % 400 == 0

/-- Length of a month in the proleptic Gregorian calendar. -/
def daysInMonth (y m : Nat) : Nat :=
  if m = 2 then (if isLeap y then 29 else 28)
  else if m = 4 ∨ m = 6 ∨ m = 9 ∨ m = 11 then 30
  else 31

/-- Days in all years before year `y` (year numbering from 1, as in
`datetime.toordinal`). -/
def daysBeforeYear (y : Nat) : Nat :=
  365 * (y - 1) + (y - 1) / 4 - (y - 1) / 100 + (y - 1) / 400

/-- Days in the months of year `y` strictly before month `m`. -/
def daysBeforeMonth (y m : Nat) : Nat :=
  ((List.range (m - 1)).map (fun k => daysInMonth y (k + 1))).sum

/-- Seconds elapsed from the start of year 1 (UTC, proleptic Gregorian) to
the instant `y-m-d h:mi:s`. -/
def toTimestamp (y m d h mi s : Nat) : Nat :=
  (daysBeforeYear y + daysBeforeMonth y m + (d - 1)) * 86400
    + h * 3600 + mi * 60 + s

/-- Model of `datetime.strptime(p, "%Y-%m-%dT%H:%M:%SZ")` followed by the
`datetime` constructor's field validation: `none` exactly when Python raises
`ValueError`, otherwise the instant as seconds on the timeline of
`toTimestamp`. -/
def parseTs (p : String) : Option Nat := do
  let l := p.toList
  let (y, l) ← takeDigits4 l
  let l ← expectChar '-' l
  let (mo, l) ← takeDigits2 l
  let l ← expectChar '-' l
  let (d, l) ← takeDigits2 l
  let l ← expectChar 'T' l
  let (h, l) ← takeDigits2 l
  let l ← expectChar ':' l
  let (mi, l) ← takeDigits2 l
  let l ← expectChar ':' l
  let (s, l) ← takeDigits2 l
  let l ← expectChar 'Z' l
  match l with
  | _ :: _ => none
  | [] =>
    if 1 ≤ y ∧ 1 ≤ mo ∧ mo ≤ 12 ∧ 1 ≤ d ∧ d ≤ daysInMonth y mo
        ∧ h ≤ 23 ∧ mi ≤ 59 ∧ s ≤ 59 then
      some (toTimestamp y mo d h mi s)
    else none

/-- `is_fresh(article, hours=36)` from `src/main.py`, with the ambient clock
`datetime.now(timezone.utc)` made explicit as `now` (seconds on the
`toTimestamp` timeline).  A missing or falsy `publishedAt` and a
`ValueError` from `strptime` both yield `false`; otherwise the result is the
inclusive elapsed-time comparison `now - published ≤ hours`. -/
def is_fresh (article : Article) (now : Int) (hours : Nat := 36) : Bool :=
  match article.publishedAt with
  | none => false
  | some p =>
    if p = "" then false
    else
      match parseTs p with
      | none => false
      | some t => decide (now - (t : Int) ≤ (hours : Int) * 3600)

/-- `RELEVANT_KEYWORDS` from `src/main.py`: the shared business-event
keywords. -/
def RELEVANT_KEYWORDS : List String :=
  ["earnings", "tariff", "tariffs", "trade war", "acquisition", "merger", "guidance",
   "forecast", "ipo", "strike", "regulation", "bill", "legislation", "lawsuit",
   "settlement", "antitrust", "sec", "layoff", "restructuring", "chapter 11",
   "guidelines", "inflation", "deflation", "revenue", "profit", "quarter", "sales",
   "recall", "investigation", "class action", "price increase", "price hike", "costs",
   "supply chain", "union", "agreement", "deal", "fine", "settlement"]

/-- `SECTOR_TERMS` from `src/main.py`, as an association list in the source's
insertion order (Python dicts preserve insertion order). -/
def SECTOR_TERMS : List (String × List String) :=
  [("auto dealers",
    ["auto dealer", "dealership", "car dealership", "car sales", "autonation",
     "group 1 automotive", "lad", "pag", "an", "cargurus", "carmax", "autotrader"]),
   ("auto manufacturers",
    ["automaker", "car maker", "vehicle manufacturer", "ford", "gm", "general motors",
     "tesla", "toyota", "stellantis", "hyundai", "honda", "volkswagen", "f", "tsla",
     "tm", "hmc", "stla", "vw"]),
   ("auto parts",
    ["auto part", "autoparts", "supplier", "magna", "dormakaba", "aap", "genuine parts",
     "borgwarner", "delphi", "components", "aftermarket"]),
   ("solar",
    ["solar", "pv", "photovoltaic", "first solar", "enphase", "solar edge", "maxeon",
     "sunpower"]),
   ("pool industry",
    ["pool supply", "poolcorp", "swimming pool", "pool equipment", "hayward"]),
   ("mattress",
    ["mattress", "sleep number", "tempur", "sealy", "casper", "simmons"]),
   ("appliances",
    ["appliance", "whirlpool", "electrolux", "frigidaire", "maytag", "lg electronics",
     "haier", "samsung appliances", "bosch appliances"]),
   ("powersports",
    ["powersport", "atv", "utv", "polaris", "brp", "yamaha", "can-am", "arctic cat"]),
   ("motorcycles",
    ["motorcycle", "harley-davidson", "ducati", "yamaha", "honda", "ktm",
     "indian motorcycle"]),
   ("rv",
    ["rv", "recreational vehicle", "winnebago", "thor", "forest river", "jayco",
     "motorhome", "travel trailer"])]

/-- `categories = list(SECTOR_TERMS.keys())`: the fixed sector display order. -/
def categories : List String := SECTOR_TERMS.map Prod.fst

/-- Lookup of `SECTOR_TERMS[cat]` (total: a key outside the table yields `[]`;
`get_news` only ever looks up keys of `categories`). -/
def sectorTermsOf (cat : String) : List String :=
  ((SECTOR_TERMS.find? (fun p => p.1 == cat)).map Prod.snd).getD []

/-- `is_market_moving(article, sector_terms)` from `src/main.py`. -/
def is_market_moving (article : Article) (sector_terms : List String) : Bool :=
  let title := lowerOpt article.title
  let desc := lowerOpt article.description
  RELEVANT_KEYWORDS.any (fun word => occursIn word title || occursIn word desc) &&
  sector_terms.any (fun term => occursIn term title || occursIn term desc)

/-- `is_sector_related(article, sector_terms)` from `src/main.py`. -/
def is_sector_related (article : Article) (sector_terms : List String) : Bool :=
  let title := lowerOpt article.title
  let desc := lowerOpt article.description
  sector_terms.any (fun term => occursIn term title || occursIn term desc)

/-- The three-way classification the selector induces on an article: `some
true` is MarketMoving, `some false` is SectorRelated, `none` is unclassified
(excluded from the sector's pool). -/
def classify (article : Article) (sector_terms : List String) : Option Bool :=
  if is_market_moving article sector_terms then some true
  else if is_sector_related article sector_terms then some false
  else none

/-- The output tuple `(art["title"], art["publishedAt"], art["url"], flag)`. -/
def mkEntry (article : Article) (flag : Bool) : Entry :=
  ⟨article.title, article.publishedAt, article.url, flag⟩

/-- The comprehension `[art for art in articles if is_fresh(art)]`. -/
def freshOf (articles : List Article) (now : Int) : List Article :=
  articles.filter (fun a => is_fresh a now)

/-- The `moving` comprehension: fresh market-moving articles, tagged `True`,
in source order. -/
def movingOf (sector_terms : List String) (fresh : List Article) : List Entry :=
  (fresh.filter (fun a => is_market_moving a sector_terms)).map (fun a => mkEntry a true)

/-- The `additional` comprehension: fresh sector-related articles whose
`False`-tagged tuple is not already in `moving`, tagged `False`, in source
order. -/
def additionalOf (sector_terms : List String) (fresh : List Article)
    (moving : List Entry) : List Entry :=
  (fresh.filter (fun a =>
    is_sector_related a sector_terms && !(decide (mkEntry a false ∈ moving)))).map
    (fun a => mkEntry a false)

/-- The backfill slice bound `max(fallback_min, per_sector) - len(moving)`,
over the integers as in Python. -/
def backfillBound (fallback_min per_sector movingLen : Nat) : Int :=
  (max fallback_min per_sector : Int) - (movingLen : Int)

/-- Python slice `l[:k]` for an integer bound `k`: a negative bound counts
from the end of the list (clamping at the front). -/
def pySlice {α : Type} (l : List α) (k : Int) : List α :=
  if 0 ≤ k then l.take k.toNat
  else l.take ((l.length : Int) + k).toNat

/-- The per-sector selection of `get_news`: freshness filter, the `moving`
priority pool, conditional backfill from `additional`, and the final
`moving[:per_sector]` truncation. -/
def select_sector (sector_terms : List String) (articles : List Article) (now : Int)
    (per_sector fallback_min : Nat) : List Entry :=
  let fresh := freshOf articles now
  let moving := movingOf sector_terms fresh
  let combined :=
    if moving.length < fallback_min then
      moving ++ pySlice (additionalOf sector_terms fresh moving)
        (backfillBound fallback_min per_sector moving.length)
    else moving
  combined.take per_sector

/-- The sector loop of `get_news` over a list of category keys: `none` models
an exception escaping the loop (any `fetch` failure aborts the whole `try`
block), `some r` the accumulated `sector_results` in insertion order.  A
sector is inserted iff its selection is non-empty. -/
def get_news_loop (fetch : String → Except String (List Article)) (now : Int)
    (per_sector fallback_min : Nat) : List String → Option (List (String × List Entry))
  | [] => some []
  | cat :: rest =>
    match fetch cat with
    | Except.error _ => none
    | Except.ok articles =>
      let sel := select_sector (sectorTermsOf cat) articles now per_sector fallback_min
      match get_news_loop fetch now per_sector fallback_min rest with
      | none => none
      | some tail => some (if sel.isEmpty then tail else (cat, sel) :: tail)

/-- `get_news(api_key, per_sector=6, fallback_min=3)` from `src/main.py`: the
HTTP layer is the oracle `fetch`; any exception in the loop is caught and the
function returns the empty dict `{}` (here the empty association list). -/
def get_news (fetch : String → Except String (List Article)) (now : Int)
    (per_sector : Nat := 6) (fallback_min : Nat := 3) : List (String × List Entry) :=
  (get_news_loop fetch now per_sector fallback_min categories).getD []

/-- Number of entries of `l` carrying the (title, publishedAt, url) triple
`t`. -/
def tripleCount (l : List Entry) (t : Option String × Option String × Option String) : Nat :=
  (l.filter (fun e => e.title == t.1 && e.publishedAt == t.2.1 && e.url == t.2.2)).length

/-! Concrete sample data used by the evaluation theorems and witnesses. -/

/-- A canonical-format timestamp used by the sample articles. -/
def sampleTs : String := "2026-01-02T00:00:00Z"

/-- A clock instant equal to the sample articles' publication instant. -/
def sampleNow : Int := (toTimestamp 2026 1 2 0 0 0 : Nat)

/-- A sample article with the given title and url, published at `sampleTs`,
with no description. -/
def mkSample (t u : String) : Article := ⟨some t, none, some sampleTs, some u⟩

/-- The sector-term list of the "solar" sector. -/
def solarTerms : List String := sectorTermsOf "solar"

/-- A fresh solar article that is sector-related but not market-moving. -/
def artDup : Article := mkSample "solar panel art show" "u1"

/-- A fresh market-moving solar article (keyword "tariff"). -/
def artMM1 : Article := mkSample "solar tariffs announced" "m1"

/-- A fresh market-moving solar article (keyword "earnings"). -/
def artMM2 : Article := mkSample "first solar earnings beat" "m2"

/-- A fresh market-moving solar article (keyword "merger"). -/
def artMM3 : Article := mkSample "solar merger talks" "m3"

/-- Fresh sector-related-only solar articles. -/
def artSR1 : Article := mkSample "solar panel art show" "s1"

/-- Fresh sector-related-only solar article (second). -/
def artSR2 : Article := mkSample "rooftop solar guide out" "s2"

/-- Fresh sector-related-only solar article (third). -/
def artSR3 : Article := mkSample "community solar event" "s3"

/-- Fresh sector-related-only solar article (fourth). -/
def artSR4 : Article := mkSample "solar homes tour" "s4"

/-- Fresh sector-related-only solar article (fifth). -/
def artSR5 : Article := mkSample "solar charity run" "s5"

/-! Helper lemmas about the selection pipeline. -/

/-- Market-moving implies sector-related: the second conjunct of
`is_market_moving` is exactly `is_sector_related`. -/
lemma mm_imp_sr {a : Article} {ts : List String}
    (h : is_market_moving a ts = true) : is_sector_related a ts = true := by
  simp only [is_market_moving, Bool.and_eq_true] at h
  simpa only [is_sector_related] using h.2

/-- Membership in the fresh pool means membership in the input and
freshness. -/
lemma mem_freshOf {a : Article} {arts : List Article} {now : Int}
    (h : a ∈ freshOf arts now) : a ∈ arts ∧ is_fresh a now = true :=
  List.mem_filter.1 h

/-- Every entry of the `moving` pool comes from a fresh market-moving
article, tagged `true`. -/
lemma mem_movingOf {e : Entry} {ts : List String} {fresh : List Article}
    (h : e ∈ movingOf ts fresh) :
    ∃ a, a ∈ fresh ∧ is_market_moving a ts = true ∧ e = mkEntry a true := by
  simp only [movingOf, List.mem_map, List.mem_filter] at h
  obtain ⟨a, ⟨ha, hmm⟩, rfl⟩ := h
  exact ⟨a, ha, hmm, rfl⟩

/-- Every entry of the `additional` pool comes from a fresh sector-related
article, tagged `false`. -/
lemma mem_additionalOf {e : Entry} {ts : List String} {fresh : List Article}
    {m : List Entry} (h : e ∈ additionalOf ts fresh m) :
    ∃ a, a ∈ fresh ∧ is_sector_related a ts = true ∧ e = mkEntry a false := by
  simp only [additionalOf, List.mem_map, List.mem_filter, Bool.and_eq_true] at h
  obtain ⟨a, ⟨ha, hsr, _⟩, rfl⟩ := h
  exact ⟨a, ha, hsr, rfl⟩

/-- Entries of the `moving` pool carry the `True` tag. -/
lemma movingOf_isMoving {e : Entry} {ts : List String} {fresh : List Article}
    (h : e ∈ movingOf ts fresh) : e.isMoving = true := by
  obtain ⟨a, -, -, rfl⟩ := mem_movingOf h
  rfl

/-- Entries of the `additional` pool carry the `False` tag. -/
lemma additionalOf_isMoving {e : Entry} {ts : List String} {fresh : List Article}
    {m : List Entry} (h : e ∈ additionalOf ts fresh m) : e.isMoving = false := by
  obtain ⟨a, -, -, rfl⟩ := mem_additionalOf h
  rfl

/-- A Python slice is a sublist of the sliced list. -/
lemma pySlice_subset {α : Type} (l : List α) (k : Int) : pySlice l k ⊆ l := by
  unfold pySlice
  split <;> exact List.take_subset _ _

/-- Selecting from an empty candidate list yields the empty selection. -/
lemma select_sector_nil (ts : List String) (now : Int) (per fb : Nat) :
    select_sector ts [] now per fb = [] := by
  simp only [select_sector, freshOf, movingOf, additionalOf, List.filter_nil,
    List.map_nil, List.length_nil, List.nil_append]
  split <;> simp [pySlice]

/-- Every selected entry originates from an input article that is fresh and
sector-related, and carries that article's (title, publishedAt, url)
fields. -/
lemma mem_select_sector_source {e : Entry} {ts : List String} {arts : List Article}
    {now : Int} {per fb : Nat} (h : e ∈ select_sector ts arts now per fb) :
    ∃ a, a ∈ arts ∧ is_fresh a now = true ∧ is_sector_related a ts = true ∧
      e.title = a.title ∧ e.publishedAt = a.publishedAt ∧ e.url = a.url := by
  simp only [select_sector] at h
  have h2 := List.take_subset _ _ h
  have h3 : e ∈ movingOf ts (freshOf arts now) ∨
      e ∈ additionalOf ts (freshOf arts now) (movingOf ts (freshOf arts now)) := by
    split at h2
    · rcases List.mem_append.1 h2 with hm | hs
      · exact Or.inl hm
      · exact Or.inr (pySlice_subset _ _ hs)
    · exact Or.inl h2
  rcases h3 with hm | hs
  · obtain ⟨a, ha, hmm, rfl⟩ := mem_movingOf hm
    obtain ⟨ha1, ha2⟩ := mem_freshOf ha
    exact ⟨a, ha1, ha2, mm_imp_sr hmm, rfl, rfl, rfl⟩
  · obtain ⟨a, ha, hsr, rfl⟩ := mem_additionalOf hs
    obtain ⟨ha1, ha2⟩ := mem_freshOf ha
    exact ⟨a, ha1, ha2, hsr, rfl, rfl, rfl⟩

/-! Claim theorems. -/

/-- Claim C4: for an article whose published-at field parses in the format
YYYY-MM-DDTHH:MM:SSZ, `is_fresh` returns true iff the elapsed time
`now - published` is at most the window; the boundary (elapsed time equal to
the window) is fresh, and a future-dated article (published after `now`) is
fresh. -/
theorem c4_fresh_iff (article : Article) (now : Int) (hours : Nat) (p : String)
    (t : Nat) (hp : article.publishedAt = some p) (ht : parseTs p = some t) :
    (is_fresh article now hours = true ↔ now - (t : Int) ≤ (hours : Int) * 3600)
    ∧ (now - (t : Int) = (hours : Int) * 3600 → is_fresh article now hours = true)
    ∧ ((t : Int) > now → is_fresh article now hours = true) := by
  have hne : p ≠ "" := by
    intro hp0
    have h0 : parseTs p = none := by rw [hp0]; rfl
    rw [h0] at ht
    cases ht
  have hmain : is_fresh article now hours
      = decide (now - (t : Int) ≤ (hours : Int) * 3600) := by
    simp only [is_fresh, hp, if_neg hne, ht]
  rw [hmain]
  refine ⟨by simp, fun he => by simp [he], fun hlt => ?_⟩
  simp only [decide_eq_true_eq]
  omega

/-- Closed witness for C4 at the freshness boundary: the sample article is
published exactly 36 hours before the clock instant and is fresh. -/
theorem c4_witness :
    (is_fresh (mkSample "solar panel art show" "u1") (sampleNow + 36 * 3600) 36 = true
      ↔ (sampleNow + 36 * 3600) - ((toTimestamp 2026 1 2 0 0 0 : Nat) : Int) ≤ (36 : Int) * 3600)
    ∧ ((sampleNow + 36 * 3600) - ((toTimestamp 2026 1 2 0 0 0 : Nat) : Int) = (36 : Int) * 3600
      → is_fresh (mkSample "solar panel art show" "u1") (sampleNow + 36 * 3600) 36 = true)
    ∧ (((toTimestamp 2026 1 2 0 0 0 : Nat) : Int) > sampleNow + 36 * 3600
      → is_fresh (mkSample "solar panel art show" "u1") (sampleNow + 36 * 3600) 36 = true) :=
  c4_fresh_iff (mkSample "solar panel art show" "u1") (sampleNow + 36 * 3600) 36
    sampleTs (toTimestamp 2026 1 2 0 0 0) rfl rfl

/-- Claim C5: an article whose published-at field is missing, or fails to
parse (a `ValueError` in the source), is never fresh; `is_fresh` is a total
function, so no exception escapes. -/
theorem c5_unparsable_not_fresh (article : Article) (now : Int) (hours : Nat)
    (h : article.publishedAt = none
      ∨ ∃ p, article.publishedAt = some p ∧ parseTs p = none) :
    is_fresh article now hours = false := by
  rcases h with h | ⟨p, hp, hpp⟩
  · simp [is_fresh, h]
  · by_cases hpe : p = ""
    · simp [is_fresh, hp, hpe]
    · simp [is_fresh, hp, if_neg hpe, hpp]

/-- Closed witness for C5: an article with no published-at field, and one
whose published-at has month 13, are both judged not fresh. -/
theorem c5_witness :
    is_fresh ⟨some "t", none, none, some "u"⟩ 0 36 = false
    ∧ is_fresh ⟨some "t", none, some "2026-13-01T00:00:00Z", some "u"⟩ 0 36 = false :=
  ⟨c5_unparsable_not_fresh _ 0 36 (Or.inl rfl),
   c5_unparsable_not_fresh _ 0 36 (Or.inr ⟨"2026-13-01T00:00:00Z", rfl, by decide⟩)⟩

/-- Claim C6: every sector selection splits as a block of market-moving
entries followed by a block of sector-related entries (so every
market-moving entry precedes every sector-related one), and its length never
exceeds the per-sector quota. -/
theorem c6_order_and_quota (ts : List String) (arts : List Article) (now : Int)
    (per fb : Nat) :
    (select_sector ts arts now per fb).length ≤ per
    ∧ ∃ u v, select_sector ts arts now per fb = u ++ v
        ∧ (∀ e ∈ u, e.isMoving = true) ∧ (∀ e ∈ v, e.isMoving = false) := by
  constructor
  · simp only [select_sector]
    exact List.length_take_le _ _
  · simp only [select_sector]
    split
    · rw [List.take_append_eq_append_take]
      refine ⟨_, _, rfl, fun e he => ?_, fun e he => ?_⟩
      · exact movingOf_isMoving (List.take_subset _ _ he)
      · exact additionalOf_isMoving (pySlice_subset _ _ (List.take_subset _ _ he))
    · exact ⟨_, [], (List.append_nil _).symm,
        fun e he => movingOf_isMoving (List.take_subset _ _ he), by simp⟩

/-- Claim C7: an article none of whose sector terms occurs case-insensitively
in its title or description is classified `none` for that sector, and — as
the only input article carrying its (title, publishedAt, url) triple — never
appears in that sector's selection. -/
theorem c7_none_excluded (ts : List String) (a : Article) (arts : List Article)
    (now : Int) (per fb : Nat)
    (hNo : ∀ term ∈ ts, occursIn term (lowerOpt a.title) = false
      ∧ occursIn term (lowerOpt a.description) = false)
    (hUniq : ∀ b ∈ arts, b.title = a.title → b.publishedAt = a.publishedAt →
      b.url = a.url → b = a) :
    classify a ts = none
    ∧ ∀ e ∈ select_sector ts arts now per fb,
        ¬(e.title = a.title ∧ e.publishedAt = a.publishedAt ∧ e.url = a.url) := by
  have hsr : is_sector_related a ts = false := by
    apply Bool.eq_false_iff.mpr
    intro hcon
    simp only [is_sector_related, List.any_eq_true, Bool.or_eq_true] at hcon
    obtain ⟨term, hterm, hor⟩ := hcon
    rcases hor with h | h
    · rw [(hNo term hterm).1] at h; cases h
    · rw [(hNo term hterm).2] at h; cases h
  have hmm : is_market_moving a ts = false := by
    rcases h : is_market_moving a ts with _ | _
    · rfl
    · exact absurd (mm_imp_sr h) (by simp [hsr])
  constructor
  · simp [classify, hmm, hsr]
  · intro e he ⟨h1, h2, h3⟩
    obtain ⟨b, hb, -, hbsr, e1, e2, e3⟩ := mem_select_sector_source he
    have hba : b = a := hUniq b hb (e1 ▸ h1) (e2 ▸ h2) (e3 ▸ h3)
    rw [hba] at hbsr
    rw [hsr] at hbsr
    cases hbsr

/-- Closed witness for C7: an article about the weather matches no solar
term, is classified `none` for the solar sector, and never appears in the
solar selection drawn from a pool also holding a genuine solar article. -/
theorem c7_witness :
    classify (mkSample "weather today" "w") solarTerms = none
    ∧ ∀ e ∈ select_sector solarTerms [mkSample "weather today" "w", artMM1] sampleNow 6 3,
        ¬(e.title = (mkSample "weather today" "w").title
          ∧ e.publishedAt = (mkSample "weather today" "w").publishedAt
          ∧ e.url = (mkSample "weather today" "w").url) :=
  c7_none_excluded solarTerms (mkSample "weather today" "w")
    [mkSample "weather today" "w", artMM1] sampleNow 6 3 (by decide) (by decide)

/-- Claim C10: when the fresh market-moving pool already reaches
`fallback_min`, the selection is exactly that pool truncated at the quota —
no sector-related backfill happens, even below the quota, and every selected
entry is tagged market-moving. -/
theorem c10_no_backfill (ts : List String) (arts : List Article) (now : Int)
    (per fb : Nat) (h : fb ≤ (movingOf ts (freshOf arts now)).length) :
    select_sector ts arts now per fb = (movingOf ts (freshOf arts now)).take per
    ∧ ∀ e ∈ select_sector ts arts now per fb, e.isMoving = true := by
  have hnot : ¬ (movingOf ts (freshOf arts now)).length < fb := Nat.not_lt.mpr h
  constructor
  · simp only [select_sector, if_neg hnot]
  · intro e he
    simp only [select_sector, if_neg hnot] at he
    exact movingOf_isMoving (List.take_subset _ _ he)

/-- Closed witness for C10: with three fresh market-moving solar articles and
`fallback_min = 3`, the selection (quota 6) is the three market-moving
articles alone — the fresh sector-related article is not backfilled. -/
theorem c10_witness :
    3 ≤ (movingOf solarTerms (freshOf [artMM1, artMM2, artMM3, artSR1] sampleNow)).length
    ∧ (select_sector solarTerms [artMM1, artMM2, artMM3, artSR1] sampleNow 6 3
        = (movingOf solarTerms (freshOf [artMM1, artMM2, artMM3, artSR1] sampleNow)).take 6
      ∧ ∀ e ∈ select_sector solarTerms [artMM1, artMM2, artMM3, artSR1] sampleNow 6 3,
          e.isMoving = true) :=
  ⟨by decide,
   c10_no_backfill solarTerms [artMM1, artMM2, artMM3, artSR1] sampleNow 6 3 (by decide)⟩

/-- Claim C1 (refuting evaluation): two copies of the same fresh
sector-related solar article yield a selection in which the article's
(title, publishedAt, url) triple appears twice — the pipeline performs no
deduplication (the backfill's membership test compares `False`-tagged tuples
against the `True`-tagged `moving` list and can never exclude anything). -/
theorem c1_duplicate_triple_twice :
    select_sector solarTerms [artDup, artDup] sampleNow 6 3
      = [mkEntry artDup false, mkEntry artDup false]
    ∧ tripleCount (select_sector solarTerms [artDup, artDup] sampleNow 6 3)
        (some "solar panel art show", some sampleTs, some "u1") = 2 := by
  constructor <;> rfl

/-- Claim C2 (refuting evaluation): with the two market-moving articles
first in source order, the backfill re-appends both of them tagged
sector-related (the exclusion test never fires), so the selection is MM1,
MM2, MM1, MM2, SR1, SR2 — not the two market-moving articles followed by
four of the five sector-related candidates — and MM1's triple appears
twice. -/
theorem c2_scenarioA_eval :
    select_sector solarTerms [artMM1, artMM2, artSR1, artSR2, artSR3, artSR4, artSR5]
        sampleNow 6 3
      = [mkEntry artMM1 true, mkEntry artMM2 true, mkEntry artMM1 false,
         mkEntry artMM2 false, mkEntry artSR1 false, mkEntry artSR2 false]
    ∧ tripleCount
        (select_sector solarTerms [artMM1, artMM2, artSR1, artSR2, artSR3, artSR4, artSR5]
          sampleNow 6 3)
        (some "solar tariffs announced", some sampleTs, some "m1") = 2 := by
  constructor <;> rfl

/-- The sector loop yields `none` as soon as any listed category's fetch
raises. -/
lemma get_news_loop_error (fetch : String → Except String (List Article))
    (now : Int) (per fb : Nat) (c s : String) (he : fetch c = Except.error s) :
    ∀ l : List String, c ∈ l → get_news_loop fetch now per fb l = none := by
  intro l
  induction l with
  | nil => intro hc; cases hc
  | cons cat rest ih =>
    intro hc
    rcases List.mem_cons.1 hc with rfl | hmem
    · simp [get_news_loop, he]
    · cases hfc : fetch cat with
      | error _ => simp [get_news_loop, hfc]
      | ok arts => simp [get_news_loop, hfc, ih hmem]

/-- The sector loop on all-successful fetches builds exactly the non-empty
selections, keyed and ordered by the traversed category list. -/
lemma get_news_loop_ok (fetch : String → Except String (List Article))
    (f : String → List Article) (now : Int) (per fb : Nat)
    (hf : ∀ c, fetch c = Except.ok (f c)) :
    ∀ l : List String, get_news_loop fetch now per fb l
      = some ((l.filter (fun c =>
          !(select_sector (sectorTermsOf c) (f c) now per fb).isEmpty)).map
        (fun c => (c, select_sector (sectorTermsOf c) (f c) now per fb))) := by
  intro l
  induction l with
  | nil => rfl
  | cons cat rest ih =>
    simp only [get_news_loop, hf cat, ih, List.filter_cons]
    by_cases hsel : (select_sector (sectorTermsOf cat) (f cat) now per fb).isEmpty
    · simp [hsel]
    · simp [hsel]

/-- Claim C3 (refuting evaluation): the run in which every fetch succeeds but
nothing qualifies and the run in which every fetch raises return the very
same value, the empty mapping — the two terminal states are not
distinguishable. -/
theorem c3_counterexample :
    get_news (fun _ => Except.ok []) 0 6 3 = get_news (fun _ => Except.error "boom") 0 6 3
    ∧ get_news (fun _ => Except.ok []) 0 6 3 = ([] : List (String × List Entry)) := by
  constructor <;> rfl

/-- Claim C3 as amended: the empty outcome is representable (the empty
mapping), but `get_news` returns that same empty mapping both when no
articles qualify and when a fetch raises, so the two are not
distinguishable by the returned value. -/
theorem c3_empty_eq_failure (fetch1 fetch2 : String → Except String (List Article))
    (now : Int) (per fb : Nat) (h1 : ∀ c, fetch1 c = Except.ok [])
    (h2 : ∃ c ∈ categories, ∃ s, fetch2 c = Except.error s) :
    get_news fetch1 now per fb = [] ∧ get_news fetch2 now per fb = []
    ∧ get_news fetch1 now per fb = get_news fetch2 now per fb := by
  obtain ⟨c, hc, s, hs⟩ := h2
  have hfail : get_news fetch2 now per fb = [] := by
    unfold get_news
    rw [get_news_loop_error fetch2 now per fb c s hs categories hc]
    rfl
  have hempty : get_news fetch1 now per fb = [] := by
    unfold get_news
    rw [get_news_loop_ok fetch1 (fun _ => []) now per fb h1 categories]
    simp [select_sector_nil]
  exact ⟨hempty, hfail, hempty.trans hfail.symm⟩

/-- Closed witness for the amended C3 at concrete fetch oracles. -/
theorem c3_witness :
    get_news (fun _ => Except.ok []) 7 6 3 = []
    ∧ get_news (fun _ => Except.error "api down") 7 6 3 = []
    ∧ get_news (fun _ => Except.ok []) 7 6 3
        = get_news (fun _ => Except.error "api down") 7 6 3 :=
  c3_empty_eq_failure (fun _ => Except.ok []) (fun _ => Except.error "api down") 7 6 3
    (fun _ => rfl) ⟨"solar", by decide, "api down", rfl⟩

/-- Claim C8: on an all-successful run, the digest holds an entry for a
sector iff that sector's selection is non-empty, and the sectors appearing do
so in the fixed display order of the catalog: the digest is the category
list filtered to non-empty selections, in order. -/
theorem c8_digest_order (fetch : String → Except String (List Article))
    (f : String → List Article) (now : Int) (per fb : Nat)
    (hf : ∀ c, fetch c = Except.ok (f c)) :
    get_news fetch now per fb
      = (categories.filter (fun c =>
          !(select_sector (sectorTermsOf c) (f c) now per fb).isEmpty)).map
        (fun c => (c, select_sector (sectorTermsOf c) (f c) now per fb)) := by
  unfold get_news
  rw [get_news_loop_ok fetch f now per fb hf categories]
  rfl

/-- Closed witness for C8: a run in which only the solar fetch returns a
qualifying article produces a digest with exactly the solar entry, in
catalog position. -/
theorem c8_witness :
    get_news (fun c => Except.ok (if c = "solar" then [artMM1] else [])) sampleNow 6 3
      = (categories.filter (fun c =>
          !(select_sector (sectorTermsOf c) (if c = "solar" then [artMM1] else [])
            sampleNow 6 3).isEmpty)).map
        (fun c => (c, select_sector (sectorTermsOf c) (if c = "solar" then [artMM1] else [])
          sampleNow 6 3)) :=
  c8_digest_order (fun c => Except.ok (if c = "solar" then [artMM1] else []))
    (fun c => if c = "solar" then [artMM1] else []) sampleNow 6 3 (fun _ => rfl)

/-- Claim C9 (refuting its negation): there is no input at which the backfill
slice bound `max(fallback_min, per_sector) - len(moving)` is negative where
the code applies it, i.e. under the branch condition
`len(moving) < fallback_min`. -/
theorem c9_counterexample :
    ¬ ∃ (ts : List String) (arts : List Article) (now : Int) (per fb : Nat),
      (movingOf ts (freshOf arts now)).length < fb
      ∧ backfillBound fb per (movingOf ts (freshOf arts now)).length < 0 := by
  rintro ⟨ts, arts, now, per, fb, hlt, hneg⟩
  simp only [backfillBound] at hneg
  omega

/-- Claim C9 as amended: where the code applies it, the backfill slice bound
is always at least 1 — the branch condition `len(moving) < fallback_min`
forces `max(fallback_min, per_sector) - len(moving) ≥ 1`, so the feared
negative slice bound cannot arise. -/
theorem c9_bound_positive (ts : List String) (arts : List Article) (now : Int)
    (per fb : Nat) (h : (movingOf ts (freshOf arts now)).length < fb) :
    1 ≤ backfillBound fb per (movingOf ts (freshOf arts now)).length := by
  simp only [backfillBound]
  omega

/-- Closed witness for the amended C9: with no candidates, the `moving` pool
is empty (below `fallback_min = 3`) and the slice bound is `max 3 6 - 0 ≥ 1`.
-/
theorem c9_witness :
    (movingOf [] (freshOf [] 0)).length < 3
    ∧ 1 ≤ backfillBound 3 6 (movingOf [] (freshOf [] 0)).length :=
  ⟨by decide, c9_bound_positive [] [] 0 6 3 (by decide)⟩

end NewsBot
